import Mathlib

/-!
Shallow embedding, over exact rationals, of the anomaly-detection engine:
the statistical detector, the isolation-forest and LOF adapters, the
ensemble detector, the streaming wrapper and the normalizer, together with
theorems settling the specification claims about them.

Python/NumPy floats are embedded as `ℚ`; NumPy vectors as `List ℚ`;
raised exceptions as the `Except String` monad (or `Option` where the
caller swallows the exception with a bare `except:`).
-/

namespace Anomaly

/-- Constant `1e-8`, the ε-guard used throughout the source. -/
def eps : ℚ := 1 / 100000000

/-- Function `np.mean`: arithmetic mean of a vector (sources use it only on
non-empty input; on `[]` this embedding returns `0` where NumPy yields
`nan`). -/
def npMean (d : List ℚ) : ℚ := d.sum / d.length

/-- Population variance `mean((x - mean)²)`, the square of `np.std`. -/
def npVar (d : List ℚ) : ℚ := npMean (d.map (fun x => (x - npMean d) ^ 2))

/-- Rational square root, exact on perfect squares (`ratSqrt q = 0 ↔ q.num ≤ 0`);
every claim below either uses a zero-variance sample (square root `0`) or
is independent of the value of the standard deviation, so this embeds
`np.sqrt` faithfully wherever a claim depends on it. -/
def ratSqrt (q : ℚ) : ℚ := (Int.sqrt q.num : ℚ) / (Nat.sqrt q.den : ℚ)

/-- Function `np.std`: square root of the population variance. -/
def npStd (d : List ℚ) : ℚ := ratSqrt (npVar d)

/-- Ascending sort, as `np.percentile` sorts its input. -/
def sortQ (d : List ℚ) : List ℚ := List.insertionSort (· ≤ ·) d

/-- Function `np.percentile(d, q)` with the default linear interpolation:
position `q(n-1)/100`, linear between the two neighbouring order
statistics. -/
def npPercentile (d : List ℚ) (q : ℚ) : ℚ :=
  let s := sortQ d
  let n := s.length
  if n = 0 then 0
  else
    let pos : ℚ := q * (n - 1) / 100
    let i : ℕ := (⌊pos⌋).toNat
    let frac : ℚ := pos - (i : ℚ)
    let a := s.getD i 0
    let b := s.getD (i + 1) a
    a + frac * (b - a)

/-- Function `np.median`, equal to `np.percentile d 50` (same linear-interpolation rule). -/
def npMedian (d : List ℚ) : ℚ := npPercentile d 50

/-- Function `np.convolve(a, v, mode='full')`: `c k = Σ_i a i * v (k - i)`. -/
def npConvolveFull (a v : List ℚ) : List ℚ :=
  (List.range (a.length + v.length - 1)).map (fun k =>
    ((List.range a.length).map (fun i =>
      if i ≤ k then a.getD i 0 * v.getD (k - i) 0 else 0)).sum)

/-- Function `np.convolve(a, v, mode='same')`: the centred `max(M, N)` values of the
full convolution (NumPy drops `⌊(min(M,N)-1)/2⌋` leading entries). -/
def npConvolveSame (a v : List ℚ) : List ℚ :=
  ((npConvolveFull a v).drop ((min a.length v.length - 1) / 2)).take
    (max a.length v.length)

end Anomaly

namespace Anomaly

/-- State of `StatisticalDetector`: threshold and name-bearing base-class
fields plus the statistics recorded by `fit`.  Before `fit`, the Python
fields hold `None`; this embedding stores `0` there, guarded by
`is_fitted = false` exactly as the source guards every read by its
fitted check. -/
structure StatState where
  threshold : ℚ
  method : String
  window : ℕ
  is_fitted : Bool
  mean : ℚ
  std : ℚ
  median : ℚ
  mad : ℚ
  q1 : ℚ
  q3 : ℚ
  iqr : ℚ
deriving DecidableEq, Repr

/-- Constructor `StatisticalDetector.__init__(threshold, method, window)`. -/
def statInit (threshold : ℚ) (method : String) (window : ℕ) : StatState :=
  { threshold := threshold, method := method, window := window
    is_fitted := false, mean := 0, std := 0, median := 0, mad := 0
    q1 := 0, q3 := 0, iqr := 0 }

/-- Method `StatisticalDetector.fit(data)`: records mean, std, median, MAD,
quartiles and IQR of the training sample and marks the detector fitted. -/
def statFit (st : StatState) (data : List ℚ) : StatState :=
  let m := npMedian data
  { st with
    mean := npMean data
    std := npStd data
    median := m
    mad := npMedian (data.map (fun x => |x - m|))
    q1 := npPercentile data 25
    q3 := npPercentile data 75
    iqr := npPercentile data 75 - npPercentile data 25
    is_fitted := true }

/-- Method `AnomalyDetector.set_threshold(threshold)`. -/
def setThreshold (st : StatState) (t : ℚ) : StatState := { st with threshold := t }

/-- Method `StatisticalDetector._moving_average(data, window)`:
`ma = np.convolve(data, np.ones(window)/window, mode='same')` followed by
the edge loop `for i in range(window): ma[i] = np.mean(data[:i+1])`.
Errors: `np.convolve` rejects an empty operand; the loop raises
`IndexError` iff some index `i < window` is out of bounds for `ma`,
i.e. iff `window > ma.length`. -/
def movingAverageE (data : List ℚ) (window : ℕ) : Except String (List ℚ) :=
  if data.length = 0 ∨ window = 0 then .error "ValueError: convolve empty operand"
  else
    let ma := npConvolveSame data (List.replicate window ((1 : ℚ) / window))
    if window ≤ ma.length then
      .ok ((List.range ma.length).map (fun i =>
        if i < window then npMean (data.take (i + 1)) else ma.getD i 0))
    else .error "IndexError"

/-- Method `StatisticalDetector.score(data)`: fitted check, then dispatch on the
method string; `zscore` is `|(x - mean)/(std + 1e-8)|`, `iqr` zeroes the
points inside `[Q1 - 1.5·IQR, Q3 + 1.5·IQR]`, `moving_average` scores the
deviation from the moving average.  The elementwise `data - ma` follows
NumPy's 1-D broadcast rule: equal lengths pair up, a length-1 operand is
stretched over the other, and any other mismatch raises a broadcast
`ValueError`.  An unknown method raises `ValueError`. -/
def statScore (st : StatState) (data : List ℚ) : Except String (List ℚ) :=
  if !st.is_fitted then .error "Detector must be fitted first"
  else if st.method = "zscore" then
    .ok (data.map (fun x => |(x - st.mean) / (st.std + eps)|))
  else if st.method = "iqr" then
    let IQR := st.q3 - st.q1
    let lower_bound := st.q1 - 3 / 2 * IQR
    let upper_bound := st.q3 + 3 / 2 * IQR
    .ok (data.map (fun x =>
      if x < lower_bound ∨ x > upper_bound then |(x - st.mean) / (st.std + eps)|
      else 0))
  else if st.method = "moving_average" then
    match movingAverageE data st.window with
    | .error e => .error e
    | .ok ma =>
        if data.length = ma.length then
          .ok ((data.zip ma).map (fun p => |p.1 - p.2| / (st.std + eps)))
        else if data.length = 1 then
          .ok (ma.map (fun y => |data.headD 0 - y| / (st.std + eps)))
        else if ma.length = 1 then
          .ok (data.map (fun x => |x - ma.headD 0| / (st.std + eps)))
        else .error "ValueError: broadcast"
  else .error ("Unknown method: " ++ st.method)

/-- Method `StatisticalDetector.predict(data) = (score(data) > threshold).astype(int)`. -/
def statPredict (st : StatState) (data : List ℚ) : Except String (List ℤ) :=
  (statScore st data).map (fun ss => ss.map (fun s => if s > st.threshold then 1 else 0))

/-- Minimum of a vector (`np.ndarray.min`; sources apply it to non-empty
vectors only, the `[]` default is never reached there). -/
def listMin (l : List ℚ) : ℚ := l.foldl min (l.headD 0)

/-- Maximum of a vector (`np.ndarray.max`). -/
def listMax (l : List ℚ) : ℚ := l.foldl max (l.headD 0)

/-- The external `sklearn` model wrapped by the isolation-forest and LOF
adapters.  Its training lives outside this repository, so a fitted model
is embedded by its two observable maps: `score_samples` and `predict`
(the latter returning the native `{-1 = anomaly, 1 = normal}` codes). -/
structure ExtModel where
  score_samples : List ℚ → List ℚ
  predict : List ℚ → List ℤ

/-- State of `IsolationForestDetector`: the base-class fields that its
methods read, plus the wrapped model.  `__init__` sets `threshold = 0`. -/
structure IFState where
  threshold : ℚ
  is_fitted : Bool
  model : ExtModel

/-- Method `IsolationForestDetector.score(data)`: fitted check, then
`-model.score_samples(data)` (inverted so that higher = more anomalous). -/
def ifScore (st : IFState) (data : List ℚ) : Except String (List ℚ) :=
  if !st.is_fitted then .error "Detector must be fitted first"
  else .ok ((st.model.score_samples data).map (fun s => -s))

/-- Method `IsolationForestDetector.predict(data)`: fitted check, then
`np.where(model.predict(data) == -1, 1, 0)`. -/
def ifPredict (st : IFState) (data : List ℚ) : Except String (List ℤ) :=
  if !st.is_fitted then .error "Detector must be fitted first"
  else .ok ((st.model.predict data).map (fun p => if p = -1 then 1 else 0))

/-- State of `LOFDetector` (same observable shape as the isolation-forest
adapter: base-class fields plus the wrapped model). -/
structure LOFState where
  threshold : ℚ
  is_fitted : Bool
  model : ExtModel

/-- Method `LOFDetector.score(data)`: fitted check, negate `score_samples`, then
min–max-normalize with the `1e-8` guard:
`(s - min) / (max - min + 1e-8)`. -/
def lofScore (st : LOFState) (data : List ℚ) : Except String (List ℚ) :=
  if !st.is_fitted then .error "Detector must be fitted first"
  else
    let scores := (st.model.score_samples data).map (fun s => -s)
    .ok (scores.map (fun s => (s - listMin scores) / (listMax scores - listMin scores + eps)))

/-- Method `LOFDetector.predict(data)`: fitted check, then
`np.where(model.predict(data) == -1, 1, 0)`. -/
def lofPredict (st : LOFState) (data : List ℚ) : Except String (List ℤ) :=
  if !st.is_fitted then .error "Detector must be fitted first"
  else .ok ((st.model.predict data).map (fun p => if p = -1 then 1 else 0))

/-- The dictionary returned by `AnomalyDetector.predict_with_scores`. -/
structure DetectionResult where
  predictions : List ℤ
  scores : List ℚ
  threshold : ℚ
  detector : String
  anomaly_count : ℤ
  anomaly_rate : ℚ
deriving DecidableEq, Repr

/-- Method `AnomalyDetector.predict_with_scores(data)` (the base-class method
shared by the statistical, isolation-forest and LOF variants): raises if
`is_fitted` is false, otherwise packages `score`, `predict`, the
threshold and the anomaly count/rate.  It is parametrised by the fields
and methods of the concrete variant (`self`). -/
def predictWithScores (is_fitted : Bool) (name : String) (threshold : ℚ)
    (score : List ℚ → Except String (List ℚ))
    (predict : List ℚ → Except String (List ℤ))
    (data : List ℚ) : Except String DetectionResult :=
  if !is_fitted then .error (name ++ " must be fitted before prediction")
  else do
    let scores ← score data
    let predictions ← predict data
    .ok { predictions := predictions, scores := scores, threshold := threshold
          detector := name, anomaly_count := predictions.sum
          anomaly_rate := (predictions.sum : ℚ) / predictions.length }

end Anomaly

namespace Anomaly

/-- One member of the ensemble, as the ensemble observes it inside its
`try`/`except` loops: a `predict` and a `score` map over the data, with
`none` embedding a raised exception (the bare `except:` swallows it).
Two of the three concrete members wrap external `sklearn` models, so the
member list is a parameter of the embedding. -/
structure Member where
  predict : List ℚ → Option (List ℤ)
  score : List ℚ → Option (List ℚ)

/-- State of `EnsembleDetector`: `voting`, the normalized weights, the
member detectors, and the base-class fields (`super().__init__` leaves
the default `threshold = 2.5`). -/
structure EnsembleState where
  threshold : ℚ
  voting : String
  weights : List ℚ
  detectors : List Member
  is_fitted : Bool

/-- Constructor `EnsembleDetector.__init__(voting, weights)`: defaults the weights to
`[1.0] * len(detectors)` when `None`, then divides each by their sum —
Python raises `ZeroDivisionError` when the sum is `0`, and this is the
only failure path: the length of a supplied weight list is never
validated. -/
def ensembleInit (voting : String) (weights : Option (List ℚ))
    (detectors : List Member) : Except String EnsembleState :=
  let ws := weights.getD (List.replicate detectors.length 1)
  if ws.sum = 0 then .error "ZeroDivisionError"
  else .ok { threshold := 5 / 2, voting := voting
             weights := ws.map (fun w => w / ws.sum)
             detectors := detectors, is_fitted := false }

/-- Method `EnsembleDetector.fit(data)`: each member's `fit` runs under
`try`/`except` on the Python side (mutating the member objects, which
this embedding carries as already-observed maps), then `is_fitted` is
set unconditionally. -/
def ensembleFit (st : EnsembleState) : EnsembleState := { st with is_fitted := true }

/-- Elementwise sum of votes at position `j`:
`np.sum(predictions, axis=0)[j]` for the surviving members' prediction
rows (the source stacks rows of length `len(data)`). -/
def voteSum (preds : List (List ℤ)) (j : ℕ) : ℤ := (preds.map (fun p => p.getD j 0)).sum

/-- Statement `weighted_scores += weight * normalized`, the in-place NumPy add
inside the weighted loop: on a length mismatch NumPy raises a broadcast
error, which the surrounding bare `except:` swallows leaving the
accumulator unchanged. -/
def addVec (acc contrib : List ℚ) : List ℚ :=
  if acc.length = contrib.length then acc.zipWith (· + ·) contrib else acc

/-- One iteration of the weighted-voting loop in
`EnsembleDetector.score`: skip the member if its `score` raised,
otherwise min–max-normalize its score row (left unscaled when the row is
constant) and accumulate it times the member's weight. -/
def weightedStep (data : List ℚ) (acc : List ℚ) (dw : Member × ℚ) : List ℚ :=
  match dw.1.score data with
  | none => acc
  | some ss =>
      let normalized :=
        if listMax ss > listMin ss then
          ss.map (fun s => (s - listMin ss) / (listMax ss - listMin ss))
        else ss
      addVec acc (normalized.map (fun s => dw.2 * s))

/-- Method `EnsembleDetector.score(data)`: majority mode collects the surviving
members' `predict` rows and returns vote fractions (`np.zeros(len(data))`
when every member raised); weighted mode accumulates each surviving
member's min–max-normalized `score` row times its weight.  Note there is
no fitted check in this method. -/
def ensembleScore (st : EnsembleState) (data : List ℚ) : List ℚ :=
  if st.voting = "majority" then
    let preds := st.detectors.filterMap (fun d => d.predict data)
    if preds = [] then List.replicate data.length 0
    else (List.range data.length).map (fun j => (voteSum preds j : ℚ) / preds.length)
  else
    (st.detectors.zip st.weights).foldl (weightedStep data) (List.replicate data.length 0)

/-- Method `EnsembleDetector.predict(data)`: `(score > 0.5)` in majority mode,
`(score > 0.6)` in weighted mode — fixed constants, not the inherited
`threshold` attribute. -/
def ensemblePredict (st : EnsembleState) (data : List ℚ) : List ℤ :=
  let scores := ensembleScore st data
  if st.voting = "majority" then scores.map (fun s => if s > 1 / 2 then 1 else 0)
  else scores.map (fun s => if s > 3 / 5 then 1 else 0)

/-- The dictionary returned by `EnsembleDetector.predict_with_scores`. -/
structure EnsembleResult where
  predictions : List ℤ
  scores : List ℚ
  confidence : List ℚ
  anomaly_count : ℤ
  anomaly_rate : ℚ
  mean_score : ℚ
  max_score : ℚ
  threshold : ℚ
  voting : String

/-- Method `EnsembleDetector.predict_with_scores(data)`: overrides the base
method with no fitted check; reports predictions, scores, the
`|score - 0.5| * 2` confidence, and the fixed mode threshold. -/
def ensemblePredictWithScores (st : EnsembleState) (data : List ℚ) : EnsembleResult :=
  let predictions := ensemblePredict st data
  let scores := ensembleScore st data
  { predictions := predictions, scores := scores
    confidence := scores.map (fun s => |s - 1 / 2| * 2)
    anomaly_count := predictions.sum
    anomaly_rate := (predictions.sum : ℚ) / predictions.length
    mean_score := npMean scores, max_score := listMax scores
    threshold := if st.voting = "majority" then 1 / 2 else 3 / 5
    voting := st.voting }

end Anomaly

namespace Anomaly

/-- The suffix of length `n` of a list: `deque(maxlen = n)` retains
exactly this after any sequence of appends. -/
def takeLast (n : ℕ) (l : List α) : List α := l.drop (l.length - n)

/-- One `append` on a `deque(maxlen = maxlen)`: add at the right, evict
from the left when over capacity. -/
def dequeAppend (maxlen : ℕ) (buf : List α) (v : α) : List α := takeLast maxlen (buf ++ [v])

/-- The environment of a `RealtimeAnomalyDetector` after `train`: the
already-fitted scaler's `normalize(·, fit=False)` and the two fitted
detectors' `predict`/`score` maps (total on the Python side once
training has happened, which is the only state in which `add_point`
invokes them). -/
structure RTEnv where
  normalize : List ℚ → List ℚ
  predStat : List ℚ → List ℤ
  predIF : List ℚ → List ℤ
  scoreStat : List ℚ → List ℚ
  scoreIF : List ℚ → List ℚ

/-- State of `RealtimeAnomalyDetector`: the bounded FIFO buffers,
the `is_trained` flag and the two monotonic counters. -/
structure RTState where
  window_size : ℕ
  data_buffer : List ℚ
  predictions_buffer : List ℤ
  scores_buffer : List ℚ
  is_trained : Bool
  anomaly_count : ℕ
  total_points : ℕ

/-- Constructor `RealtimeAnomalyDetector.__init__(window_size)`. -/
def rtInit (window_size : ℕ) (is_trained : Bool) : RTState :=
  { window_size := window_size, data_buffer := [], predictions_buffer := []
    scores_buffer := [], is_trained := is_trained, anomaly_count := 0, total_points := 0 }

/-- The verdict dictionary returned by `add_point` (timestamp omitted:
wall-clock time is outside the embedding). -/
structure Verdict where
  value : ℚ
  is_anomaly : ℤ
  score : ℚ
  score_stat : ℚ
  score_if : ℚ
deriving DecidableEq, Repr

/-- Method `RealtimeAnomalyDetector.add_point(value)`: append to the data
buffer and bump `total_points`; when at least 10 points are buffered and
training has occurred, normalize the whole buffer with the already-fitted
scaler, take both detectors' prediction and score at the last position
(`[-1]`, embedded with a default that is never reached since the buffer
is non-empty), OR-combine the predictions (`pred_stat + pred_if >= 1`),
record max of the scores, and return the verdict; otherwise return
`none`. -/
def addPoint (env : RTEnv) (st : RTState) (v : ℚ) : RTState × Option Verdict :=
  let st := { st with data_buffer := dequeAppend st.window_size st.data_buffer v
                      total_points := st.total_points + 1 }
  if 10 ≤ st.data_buffer.length ∧ st.is_trained then
    let normalized := env.normalize st.data_buffer
    let pred_stat := (env.predStat normalized).getLastD 0
    let pred_if := (env.predIF normalized).getLastD 0
    let score_stat := (env.scoreStat normalized).getLastD 0
    let score_if := (env.scoreIF normalized).getLastD 0
    let ensemble_pred : ℤ := if pred_stat + pred_if ≥ 1 then 1 else 0
    let st :=
      { st with
        predictions_buffer := dequeAppend st.window_size st.predictions_buffer ensemble_pred
        scores_buffer := dequeAppend st.window_size st.scores_buffer (max score_stat score_if)
        anomaly_count := if ensemble_pred = 1 then st.anomaly_count + 1 else st.anomaly_count }
    (st, some { value := v, is_anomaly := ensemble_pred, score := max score_stat score_if
                score_stat := score_stat, score_if := score_if })
  else (st, none)

/-- Feeding a whole stream of values through `add_point`, keeping only
the evolving state. -/
def runStream (env : RTEnv) (st : RTState) (vs : List ℚ) : RTState :=
  vs.foldl (fun s v => (addPoint env s v).1) st

end Anomaly

namespace Anomaly

/-- Fitted scaler parameters.  Modelled from the spec: the three
`sklearn` scalers wrapped by `TimeSeriesProcessor` are outside this
repository; §4.1 fixes their transforms — *standard* `(x - mean)/std`,
*minmax* `(x - min)/(max - min)`, *robust* `(x - median)/IQR` — each an
affine map `x ↦ (x - center)/scale` whose inverse is
`x ↦ x·scale + center`. -/
structure ScalerState where
  center : ℚ
  scale : ℚ
deriving DecidableEq, Repr

/-- Modelled from the spec: fitting the scaler selected by the
constructor's method string on a sample (`standard` is the fallback
branch, as in `TimeSeriesProcessor._get_scaler`). -/
def scalerFit (method : String) (data : List ℚ) : ScalerState :=
  if method = "minmax" then { center := listMin data, scale := listMax data - listMin data }
  else if method = "robust" then
    { center := npMedian data, scale := npPercentile data 75 - npPercentile data 25 }
  else { center := npMean data, scale := npStd data }

/-- State of `TimeSeriesProcessor`: the normalization method chosen at
construction, the fitted scaler parameters and the `fitted` flag. -/
structure ProcState where
  method : String
  scaler : ScalerState
  fitted : Bool
deriving DecidableEq, Repr

/-- Constructor `TimeSeriesProcessor.__init__(normalization_method)`. -/
def tspInit (method : String) : ProcState :=
  { method := method, scaler := { center := 0, scale := 1 }, fitted := false }

/-- Method `TimeSeriesProcessor.normalize(data, fit)`: with `fit=true` fit the
scaler on `data` then transform; with `fit=false` require the scaler to
be fitted (else `ValueError`) and transform with the stored parameters. -/
def tspNormalize (p : ProcState) (data : List ℚ) (fit : Bool) :
    Except String (ProcState × List ℚ) :=
  if fit then
    let sc := scalerFit p.method data
    .ok ({ p with scaler := sc, fitted := true },
         data.map (fun x => (x - sc.center) / sc.scale))
  else if !p.fitted then .error "Scaler must be fitted first"
  else .ok (p, data.map (fun x => (x - p.scaler.center) / p.scaler.scale))

/-- Method `TimeSeriesProcessor.denormalize(data)`: the inverse transform
`x * scale + center`. -/
def tspDenormalize (p : ProcState) (data : List ℚ) : List ℚ :=
  data.map (fun x => x * p.scaler.scale + p.scaler.center)

end Anomaly

namespace Anomaly

/-! ### Supporting lemmas -/

theorem eps_pos : 0 < eps := by norm_num [eps]

theorem ratSqrt_nonneg (q : ℚ) : 0 ≤ ratSqrt q := by
  unfold ratSqrt
  exact div_nonneg (by exact_mod_cast Int.sqrt_nonneg q.num) (by positivity)

theorem npStd_nonneg (d : List ℚ) : 0 ≤ npStd d := ratSqrt_nonneg _

theorem npStd_add_eps_pos (d : List ℚ) : 0 < npStd d + eps :=
  add_pos_of_nonneg_of_pos (npStd_nonneg d) eps_pos

theorem getD_map_lt {α β : Type} (f : α → β) (l : List α) (i : ℕ) (h : i < l.length)
    (d : β) (d' : α) : (l.map f).getD i d = f (l.getD i d') := by
  rw [List.getD_eq_getElem _ _ (by simpa using h), List.getD_eq_getElem _ _ h]
  simp

theorem getD_range_map {α : Type} (n : ℕ) (f : ℕ → α) (j : ℕ) (h : j < n) (d : α) :
    ((List.range n).map f).getD j d = f j := by
  rw [List.getD_eq_getElem _ _ (by simpa using h)]
  simp

theorem statScore_zscore (st : StatState) (hf : st.is_fitted = true)
    (hm : st.method = "zscore") (data : List ℚ) :
    statScore st data = .ok (data.map (fun x => |(x - st.mean) / (st.std + eps)|)) := by
  unfold statScore
  rw [hf, hm]
  rfl

theorem statScore_iqr (st : StatState) (hf : st.is_fitted = true)
    (hm : st.method = "iqr") (data : List ℚ) :
    statScore st data = .ok (data.map (fun x =>
      if x < st.q1 - 3 / 2 * (st.q3 - st.q1) ∨ x > st.q3 + 3 / 2 * (st.q3 - st.q1) then
        |(x - st.mean) / (st.std + eps)|
      else 0)) := by
  unfold statScore
  rw [hf, hm]
  rfl

theorem statFit_is_fitted (st : StatState) (data : List ℚ) :
    (statFit st data).is_fitted = true := rfl

theorem statFit_method (st : StatState) (data : List ℚ) :
    (statFit st data).method = st.method := rfl

end Anomaly

namespace Anomaly

theorem statFit_threshold (st : StatState) (d : List ℚ) :
    (statFit st d).threshold = st.threshold := rfl

theorem statInit_threshold (t : ℚ) (m : String) (w : ℕ) :
    (statInit t m w).threshold = t := rfl

theorem statScore_zscore_fit (thr : ℚ) (w : ℕ) (train data : List ℚ) :
    statScore (statFit (statInit thr "zscore" w) train) data =
      .ok (data.map (fun x => |x - npMean train| / (npStd train + eps))) := by
  rw [statScore_zscore _ (statFit_is_fitted _ _) (statFit_method _ _) data]
  have hstd : (statFit (statInit thr "zscore" w) train).std = npStd train := rfl
  have hmean : (statFit (statInit thr "zscore" w) train).mean = npMean train := rfl
  rw [hstd, hmean]
  have hfun : (fun x : ℚ => |(x - npMean train) / (npStd train + eps)|) =
      (fun x : ℚ => |x - npMean train| / (npStd train + eps)) := by
    funext x
    rw [abs_div, abs_of_pos (npStd_add_eps_pos train)]
  rw [hfun]

theorem npMean_replicate_ten : npMean (List.replicate 10 (10 : ℚ)) = 10 := by
  norm_num [npMean, List.sum_replicate]

theorem npStd_replicate_ten : npStd (List.replicate 10 (10 : ℚ)) = 0 := by
  have hv : npVar (List.replicate 10 (10 : ℚ)) = 0 := by
    norm_num [npVar, npMean_replicate_ten, List.map_replicate, npMean, List.sum_replicate]
  rw [npStd, hv]
  norm_num [ratSqrt]

theorem statScore_ten_scenario :
    statScore (statFit (statInit (5 / 2) "zscore" 10) (List.replicate 10 (10 : ℚ)))
      [10, 50] = .ok [0, 40 / eps] := by
  rw [statScore_zscore_fit, npMean_replicate_ten, npStd_replicate_ten]
  norm_num [eps]

theorem statPredict_ten_scenario :
    statPredict (statFit (statInit (5 / 2) "zscore" 10) (List.replicate 10 (10 : ℚ)))
      [10, 50] = .ok [0, 1] := by
  unfold statPredict
  rw [statScore_ten_scenario]
  simp only [Except.map, List.map_cons, List.map_nil, statFit_threshold, statInit_threshold]
  norm_num [eps]

/-- Claim C5: for a fitted `zscore` `StatisticalDetector`, every point `x`
scores `|x - mean| / (std + 1e-8)` with the training sample's mean and
std; fitting on `[10,10,10,10,10,10,10,10,10,10]` with threshold `2.5`
and scoring `[10, 50]` yields scores `[0, 40/1e-8]` and predictions
`[0, 1]`. -/
theorem C5_zscore_formula_and_constant_sample_scenario :
    (∀ (thr : ℚ) (w : ℕ) (train data : List ℚ),
        statScore (statFit (statInit thr "zscore" w) train) data =
          .ok (data.map (fun x => |x - npMean train| / (npStd train + eps)))) ∧
    statScore (statFit (statInit (5 / 2) "zscore" 10) (List.replicate 10 (10 : ℚ)))
        [10, 50] = .ok [0, 40 / eps] ∧
    statPredict (statFit (statInit (5 / 2) "zscore" 10) (List.replicate 10 (10 : ℚ)))
        [10, 50] = .ok [0, 1] :=
  ⟨statScore_zscore_fit, statScore_ten_scenario, statPredict_ten_scenario⟩

end Anomaly
namespace Anomaly

theorem statScore_iqr_ok_getD (st : StatState) (hf : st.is_fitted = true)
    (hm : st.method = "iqr") (data : List ℚ) (ss : List ℚ)
    (hss : statScore st data = .ok ss) (i : ℕ) (hi : i < data.length) :
    ss.getD i 0 =
      if data.getD i 0 < st.q1 - 3 / 2 * (st.q3 - st.q1) ∨
          data.getD i 0 > st.q3 + 3 / 2 * (st.q3 - st.q1) then
        |(data.getD i 0 - st.mean) / (st.std + eps)|
      else 0 := by
  rw [statScore_iqr st hf hm data] at hss
  injection hss with h
  subst h
  exact getD_map_lt _ data i hi 0 0

/-- Claim C6 (amended): for a fitted `iqr` `StatisticalDetector`, every
point inside the closed interval `[Q1 - 1.5·IQR, Q3 + 1.5·IQR]` of the
training sample scores exactly `0` and — whenever the threshold is
nonnegative — is not flagged; every point outside the interval scores its
zscore value `|x - mean| / (std + 1e-8)`.  (As stated the claim is false:
with a negative threshold, set through `set_threshold`, a score of `0`
does exceed the threshold and the point inside the interval is flagged.) -/
theorem C6_iqr_inside_zero_outside_zscore :
    ∀ (thr : ℚ) (w : ℕ) (train data : List ℚ) (ss : List ℚ) (ps : List ℤ),
      statScore (statFit (statInit thr "iqr" w) train) data = .ok ss →
      statPredict (statFit (statInit thr "iqr" w) train) data = .ok ps →
      ∀ i, i < data.length →
        ((statFit (statInit thr "iqr" w) train).q1 -
              3 / 2 * ((statFit (statInit thr "iqr" w) train).q3 -
                (statFit (statInit thr "iqr" w) train).q1) ≤ data.getD i 0 ∧
            data.getD i 0 ≤ (statFit (statInit thr "iqr" w) train).q3 +
              3 / 2 * ((statFit (statInit thr "iqr" w) train).q3 -
                (statFit (statInit thr "iqr" w) train).q1) →
          ss.getD i 0 = 0 ∧ (0 ≤ thr → ps.getD i 0 = 0)) ∧
        (data.getD i 0 < (statFit (statInit thr "iqr" w) train).q1 -
              3 / 2 * ((statFit (statInit thr "iqr" w) train).q3 -
                (statFit (statInit thr "iqr" w) train).q1) ∨
            (statFit (statInit thr "iqr" w) train).q3 +
              3 / 2 * ((statFit (statInit thr "iqr" w) train).q3 -
                (statFit (statInit thr "iqr" w) train).q1) < data.getD i 0 →
          ss.getD i 0 = |data.getD i 0 - npMean train| / (npStd train + eps)) := by
  intro thr w train data ss ps hss hps i hi
  set st := statFit (statInit thr "iqr" w) train with hst
  have hf : st.is_fitted = true := rfl
  have hm : st.method = "iqr" := rfl
  constructor
  · intro hin
    have hzero : ss.getD i 0 = 0 := by
      rw [statScore_iqr_ok_getD st hf hm data ss hss i hi, if_neg]
      push_neg
      exact hin
    refine ⟨hzero, fun hthr => ?_⟩
    unfold statPredict at hps
    rw [hss] at hps
    simp only [Except.map] at hps
    injection hps with h
    subst h
    have hlen : i < ss.length := by
      rw [statScore_iqr st hf hm data] at hss
      injection hss with h
      subst h
      simpa using hi
    rw [getD_map_lt _ ss i hlen 0 0, hzero]
    rw [if_neg]
    have : st.threshold = thr := rfl
    rw [this]
    exact not_lt.mpr hthr
  · intro hout
    rw [statScore_iqr_ok_getD st hf hm data ss hss i hi, if_pos hout]
    have hmean : st.mean = npMean train := rfl
    have hstd : st.std = npStd train := rfl
    rw [hmean, hstd, abs_div, abs_of_pos (npStd_add_eps_pos train)]

end Anomaly
namespace Anomaly

/-- Concrete `iqr` detector: fitted on `[1,2,3,4,5]` (so `Q1 = 2`,
`Q3 = 4`, `IQR = 2`, bounds `[-1, 7]`), threshold then set to `-1`
through `set_threshold`. -/
def iqrNegThreshold : StatState :=
  setThreshold (statFit (statInit 3 "iqr" 10) [1, 2, 3, 4, 5]) (-1)

theorem iqrNegThreshold_q1 : iqrNegThreshold.q1 = 2 := by
  show npPercentile [1, 2, 3, 4, 5] 25 = 2
  norm_num [npPercentile, sortQ, List.insertionSort, List.orderedInsert]

theorem iqrNegThreshold_q3 : iqrNegThreshold.q3 = 4 := by
  show npPercentile [1, 2, 3, 4, 5] 75 = 4
  norm_num [npPercentile, sortQ, List.insertionSort, List.orderedInsert]
  norm_num [show Int.toNat 3 = 3 from rfl]

/-- Claim C6, counterexample to "never flagged as an anomaly regardless of
the threshold value": the point `3` lies inside the IQR bounds `[-1, 7]` of
the training sample `[1,2,3,4,5]` (score `0`), yet with threshold `-1`
`predict` flags it, because `0 > -1`. -/
theorem C6_counterexample_negative_threshold_flags_inside_point :
    iqrNegThreshold.q1 - 3 / 2 * (iqrNegThreshold.q3 - iqrNegThreshold.q1) ≤ 3 ∧
    (3 : ℚ) ≤ iqrNegThreshold.q3 + 3 / 2 * (iqrNegThreshold.q3 - iqrNegThreshold.q1) ∧
    statPredict iqrNegThreshold [3] = .ok [1] := by
  have hsc : statScore iqrNegThreshold [3] = .ok [0] := by
    rw [statScore_iqr _ rfl rfl]
    simp only [List.map_cons, List.map_nil, iqrNegThreshold_q1, iqrNegThreshold_q3]
    norm_num
  refine ⟨?_, ?_, ?_⟩
  · rw [iqrNegThreshold_q1, iqrNegThreshold_q3]; norm_num
  · rw [iqrNegThreshold_q1, iqrNegThreshold_q3]; norm_num
  · unfold statPredict
    rw [hsc]
    simp only [Except.map, List.map_cons, List.map_nil]
    have hthr : iqrNegThreshold.threshold = -1 := rfl
    rw [hthr]
    norm_num

end Anomaly
namespace Anomaly

theorem C6_witness :
    (([(0 : ℚ)].getD 0 0 = 0) ∧ (0 ≤ (3 : ℚ) → [(0 : ℤ)].getD 0 0 = 0)) := by
  have hq1 : (statFit (statInit 3 "iqr" 10) [1, 2, 3, 4, 5]).q1 = 2 := by
    show npPercentile [1, 2, 3, 4, 5] 25 = 2
    norm_num [npPercentile, sortQ, List.insertionSort, List.orderedInsert]
  have hq3 : (statFit (statInit 3 "iqr" 10) [1, 2, 3, 4, 5]).q3 = 4 := by
    show npPercentile [1, 2, 3, 4, 5] 75 = 4
    norm_num [npPercentile, sortQ, List.insertionSort, List.orderedInsert]
    norm_num [show Int.toNat 3 = 3 from rfl]
  have hss : statScore (statFit (statInit 3 "iqr" 10) [1, 2, 3, 4, 5]) [3] = .ok [0] := by
    rw [statScore_iqr _ rfl rfl]
    simp only [List.map_cons, List.map_nil, hq1, hq3]
    norm_num
  have hps : statPredict (statFit (statInit 3 "iqr" 10) [1, 2, 3, 4, 5]) [3] = .ok [0] := by
    unfold statPredict
    rw [hss]
    simp only [Except.map, List.map_cons, List.map_nil]
    have hthr : (statFit (statInit 3 "iqr" 10) [1, 2, 3, 4, 5]).threshold = 3 := rfl
    rw [hthr]
    norm_num
  exact (C6_iqr_inside_zero_outside_zscore 3 10 [1, 2, 3, 4, 5] [3] [0] [0] hss hps 0
      (by norm_num)).1 (by rw [hq1, hq3]; norm_num)

theorem length_npConvolveFull (a v : List ℚ) :
    (npConvolveFull a v).length = a.length + v.length - 1 := by
  simp [npConvolveFull]

theorem length_npConvolveSame (a v : List ℚ) (ha : a ≠ []) (hv : v ≠ []) :
    (npConvolveSame a v).length = max a.length v.length := by
  have h1 : 0 < a.length := List.length_pos.mpr ha
  have h2 : 0 < v.length := List.length_pos.mpr hv
  have h3 : (min a.length v.length - 1) / 2 ≤ min a.length v.length - 1 :=
    Nat.div_le_self _ _
  simp only [npConvolveSame, List.length_take, List.length_drop, length_npConvolveFull]
  omega

theorem statScore_moving_average_eq (st : StatState) (hf : st.is_fitted = true)
    (hm : st.method = "moving_average") (data ma : List ℚ)
    (hME : movingAverageE data st.window = .ok ma) :
    statScore st data =
      if data.length = ma.length then
        .ok ((data.zip ma).map (fun p => |p.1 - p.2| / (st.std + eps)))
      else if data.length = 1 then
        .ok (ma.map (fun y => |data.headD 0 - y| / (st.std + eps)))
      else if ma.length = 1 then
        .ok (data.map (fun x => |x - ma.headD 0| / (st.std + eps)))
      else .error "ValueError: broadcast" := by
  unfold statScore
  rw [hf, hm]
  have h1 : ("moving_average" = "zscore") = False := by simp
  have h2 : ("moving_average" = "iqr") = False := by simp
  simp only [Bool.not_true, h1, h2, if_false, reduceIte]
  rw [hME]
  simp

theorem movingAverageE_short_ok (data : List ℚ) (window : ℕ)
    (hpos : 0 < data.length) (hlt : data.length < window) :
    movingAverageE data window =
      .ok ((List.range window).map (fun i =>
        if i < window then npMean (data.take (i + 1))
        else (npConvolveSame data (List.replicate window ((1 : ℚ) / window))).getD i 0)) := by
  have hdne : data ≠ [] := List.length_pos.mp hpos
  have hrep : (List.replicate window ((1 : ℚ) / window)) ≠ [] := by
    simp [List.replicate_eq_nil_iff]
    omega
  have hmalen : (npConvolveSame data (List.replicate window ((1 : ℚ) / window))).length
      = window := by
    rw [length_npConvolveSame _ _ hdne hrep]
    simp only [List.length_replicate]
    omega
  unfold movingAverageE
  rw [if_neg (by omega)]
  simp only [hmalen, le_refl, if_true]

theorem statScore_short_moving_average (st : StatState) (data : List ℚ)
    (hf : st.is_fitted = true) (hm : st.method = "moving_average")
    (hpos : 2 ≤ data.length) (hlt : data.length < st.window) :
    statScore st data = .error "ValueError: broadcast" ∧
    movingAverageE data st.window ≠ .error "IndexError" := by
  have hME := movingAverageE_short_ok data st.window (by omega) hlt
  refine ⟨?_, ?_⟩
  · rw [statScore_moving_average_eq st hf hm data _ hME]
    have hlen2 : ((List.range st.window).map (fun i =>
        if i < st.window then npMean (data.take (i + 1))
        else (npConvolveSame data (List.replicate st.window ((1 : ℚ) / st.window))).getD i 0)).length
        = st.window := by simp
    rw [hlen2, if_neg (by omega), if_neg (by omega), if_neg (by omega)]
  · rw [hME]
    intro h
    exact Except.noConfusion h

theorem statScore_singleton_moving_average (st : StatState) (data : List ℚ)
    (hf : st.is_fitted = true) (hm : st.method = "moving_average")
    (h1 : data.length = 1) (hw : 1 < st.window) :
    ∃ ss, statScore st data = .ok ss ∧ ss.length = st.window := by
  have hME := movingAverageE_short_ok data st.window (by omega) (by omega)
  have hlen2 : ((List.range st.window).map (fun i =>
      if i < st.window then npMean (data.take (i + 1))
      else (npConvolveSame data (List.replicate st.window ((1 : ℚ) / st.window))).getD i 0)).length
      = st.window := by simp
  refine ⟨((List.range st.window).map (fun i =>
      if i < st.window then npMean (data.take (i + 1))
      else (npConvolveSame data (List.replicate st.window ((1 : ℚ) / st.window))).getD i 0)).map
        (fun y => |data.headD 0 - y| / (st.std + eps)), ?_, ?_⟩
  · rw [statScore_moving_average_eq st hf hm data _ hME]
    rw [hlen2, if_neg (by omega), if_pos h1]
  · rw [List.length_map, hlen2]

/-- Claim C10 (amended): scoring a fitted `moving_average` detector on an
input of length `n` with `2 ≤ n < window` is indeed not total, but the
error is not an `IndexError` from the edge-smoothing loop: `np.convolve`
with `mode='same'` returns `max(n, window) = window` slots (one per
kernel position, not one per input point), so the loop stays in bounds,
and the failure is the broadcast `ValueError` raised by the elementwise
`data - ma` with incompatible lengths.  A single-point input raises
nothing at all: its shape-`(1,)` array broadcasts against the
`window`-length moving average and `score` returns a length-`window`
vector. -/
theorem C10_short_input_broadcast_not_index_error :
    ∀ (st : StatState) (data : List ℚ),
      st.is_fitted = true → st.method = "moving_average" →
      (2 ≤ data.length → data.length < st.window →
        statScore st data = .error "ValueError: broadcast" ∧
        movingAverageE data st.window ≠ .error "IndexError") ∧
      (data.length = 1 → 1 < st.window →
        ∃ ss, statScore st data = .ok ss ∧ ss.length = st.window) :=
  fun st data hf hm =>
    ⟨fun hpos hlt => statScore_short_moving_average st data hf hm hpos hlt,
     fun h1 hw => statScore_singleton_moving_average st data hf hm h1 hw⟩

/-- Fitted `moving_average` detector with window `10` (trained on a
ten-point sample). -/
def maShort : StatState :=
  statFit (statInit (5 / 2) "moving_average" 10) [1, 2, 3, 4, 5, 6, 7, 8, 9, 10]

/-- Claim C10, counterexample to the stated failure mode: on the
five-point input the fitted window-10 detector raises the broadcast
`ValueError` at `data - ma`, and the edge loop raises no `IndexError`
(`ma` has `max(5, 10) = 10` slots, so every loop index is in bounds);
and on a single-point input `score` raises nothing: the point broadcasts
against the window-length moving average and scoring succeeds. -/
theorem C10_counterexample_broadcast_error_not_index_error :
    statScore maShort [1, 2, 3, 4, 5] = .error "ValueError: broadcast" ∧
    movingAverageE [1, 2, 3, 4, 5] 10 ≠ .error "IndexError" ∧
    (statScore maShort [7]).isOk = true := by
  obtain ⟨h1, h2⟩ :=
    statScore_short_moving_average maShort [1, 2, 3, 4, 5] rfl rfl (by decide) (by decide)
  obtain ⟨ss, hss, -⟩ :=
    statScore_singleton_moving_average maShort [7] rfl rfl rfl (by decide)
  refine ⟨h1, h2, ?_⟩
  rw [hss]
  rfl

theorem C10_witness :
    (statScore maShort [0, 0, 0] = .error "ValueError: broadcast" ∧
      movingAverageE [0, 0, 0] maShort.window ≠ .error "IndexError") ∧
    (statScore maShort [0]).isOk = true := by
  refine ⟨(C10_short_input_broadcast_not_index_error maShort [0, 0, 0] rfl rfl).1
      (by decide) (by decide), ?_⟩
  obtain ⟨ss, hss, -⟩ :=
    (C10_short_input_broadcast_not_index_error maShort [0] rfl rfl).2 rfl (by decide)
  rw [hss]
  rfl

end Anomaly
namespace Anomaly

/-! ### Ensemble lemmas -/

theorem addVec_length (acc c : List ℚ) : (addVec acc c).length = acc.length := by
  unfold addVec
  split
  · rename_i h
    simp [List.length_zipWith, h]
  · rfl

theorem weightedStep_length (data acc : List ℚ) (dw : Member × ℚ) :
    (weightedStep data acc dw).length = acc.length := by
  unfold weightedStep
  split
  · rfl
  · exact addVec_length _ _

theorem foldl_weightedStep_length (data : List ℚ) (l : List (Member × ℚ)) :
    ∀ acc : List ℚ, (l.foldl (weightedStep data) acc).length = acc.length := by
  induction l with
  | nil => intro acc; rfl
  | cons hd tl ih =>
      intro acc
      rw [List.foldl_cons, ih, weightedStep_length]

theorem ensembleScore_length (st : EnsembleState) (data : List ℚ) :
    (ensembleScore st data).length = data.length := by
  unfold ensembleScore
  split
  · dsimp only
    split <;> simp
  · rw [foldl_weightedStep_length]
    simp

theorem ensembleScore_majority_getD (st : EnsembleState) (data : List ℚ)
    (hv : st.voting = "majority")
    (hne : st.detectors.filterMap (fun d => d.predict data) ≠ [])
    (j : ℕ) (hj : j < data.length) :
    (ensembleScore st data).getD j 0 =
      (voteSum (st.detectors.filterMap (fun d => d.predict data)) j : ℚ) /
        (st.detectors.filterMap (fun d => d.predict data)).length := by
  unfold ensembleScore
  rw [hv]
  simp only [reduceIte, if_neg hne]
  exact getD_range_map _ _ j hj 0

theorem ensembleScore_majority_empty (st : EnsembleState) (data : List ℚ)
    (hv : st.voting = "majority")
    (he : st.detectors.filterMap (fun d => d.predict data) = []) :
    ensembleScore st data = List.replicate data.length 0 := by
  unfold ensembleScore
  rw [hv]
  simp only [reduceIte, he, if_pos rfl]

theorem ensemblePredict_majority_getD (st : EnsembleState) (data : List ℚ)
    (hv : st.voting = "majority") (j : ℕ) (hj : j < data.length) :
    (ensemblePredict st data).getD j 0 =
      if (ensembleScore st data).getD j 0 > 1 / 2 then 1 else 0 := by
  unfold ensemblePredict
  rw [hv]
  simp only [reduceIte]
  have hlen : j < (ensembleScore st data).length := by
    rw [ensembleScore_length]; exact hj
  rw [getD_map_lt _ _ j hlen 0 0]

theorem ensemblePredict_weighted_getD (st : EnsembleState) (data : List ℚ)
    (hv : st.voting ≠ "majority") (j : ℕ) (hj : j < data.length) :
    (ensemblePredict st data).getD j 0 =
      if (ensembleScore st data).getD j 0 > 3 / 5 then 1 else 0 := by
  unfold ensemblePredict
  rw [if_neg hv]
  have hlen : j < (ensembleScore st data).length := by
    rw [ensembleScore_length]; exact hj
  rw [getD_map_lt _ _ j hlen 0 0]

theorem sum_eq_count_one (l : List ℤ) (h : ∀ x ∈ l, x = 0 ∨ x = 1) :
    l.sum = l.count 1 := by
  induction l with
  | nil => rfl
  | cons a t ih =>
      have ha := h a (by simp)
      have ht : ∀ x ∈ t, x = 0 ∨ x = 1 := fun x hx => h x (by simp [hx])
      rcases ha with rfl | rfl
      · simp [List.count_cons, ih ht]
      · simp [List.count_cons, ih ht]
        ring

theorem voteSum_eq_count (preds : List (List ℤ)) (j : ℕ)
    (h : ∀ p ∈ preds, p.getD j 0 = 0 ∨ p.getD j 0 = 1) :
    voteSum preds j = (preds.map (fun p => p.getD j 0)).count 1 := by
  unfold voteSum
  rw [sum_eq_count_one]
  intro x hx
  obtain ⟨p, hp, rfl⟩ := List.mem_map.mp hx
  exact h p hp

end Anomaly
namespace Anomaly

/-- Member behaviour that flags every point (predicts `1` everywhere and
scores `1` everywhere), as a far outlier elicits from all members. -/
def memFlagAll : Member :=
  { predict := fun d => some (d.map (fun _ => 1)), score := fun d => some (d.map (fun _ => 1)) }

/-- Member behaviour that flags no point. -/
def memFlagNone : Member :=
  { predict := fun d => some (d.map (fun _ => 0)), score := fun d => some (d.map (fun _ => 0)) }

/-- Member behaviour whose calls raise — exactly what an unfitted member
detector does inside the ensemble's `try`/`except` loops. -/
def memRaise : Member := { predict := fun _ => none, score := fun _ => none }

/-- Fitted majority ensemble whose three members vote `1`, `1`, `0` on
every point: the state built by
`EnsembleDetector(voting="majority")` followed by `fit` when two members
flag a point and one does not. -/
def ensMaj : EnsembleState :=
  { threshold := 5 / 2, voting := "majority", weights := [1 / 3, 1 / 3, 1 / 3]
    detectors := [memFlagAll, memFlagAll, memFlagNone], is_fitted := true }

theorem ensembleInit_ensMaj :
    (ensembleInit "majority" none [memFlagAll, memFlagAll, memFlagNone]).map ensembleFit =
      .ok ensMaj := by
  unfold ensembleInit
  rw [if_neg (by norm_num)]
  simp only [Except.map, ensembleFit, ensMaj]
  rw [Except.ok.injEq, EnsembleState.mk.injEq]
  refine ⟨rfl, rfl, by norm_num [List.replicate], rfl, rfl⟩

/-- Unfitted ensemble: the state built by
`EnsembleDetector(voting="majority")` before any `fit`, whose three
members all raise when called. -/
def ensUnfit : EnsembleState :=
  { threshold := 5 / 2, voting := "majority", weights := [1 / 3, 1 / 3, 1 / 3]
    detectors := [memRaise, memRaise, memRaise], is_fitted := false }

theorem ensembleInit_ensUnfit :
    ensembleInit "majority" none [memRaise, memRaise, memRaise] = .ok ensUnfit := by
  unfold ensembleInit
  rw [if_neg (by norm_num)]
  simp only [ensUnfit]
  rw [Except.ok.injEq, EnsembleState.mk.injEq]
  refine ⟨rfl, rfl, by norm_num [List.replicate], rfl, rfl⟩

theorem ensMaj_preds :
    ensMaj.detectors.filterMap (fun d => d.predict [5]) = [[1], [1], [0]] := by
  simp [ensMaj, memFlagAll, memFlagNone]

theorem ensembleScore_ensMaj : ensembleScore ensMaj [5] = [2 / 3] := by
  unfold ensembleScore
  rw [show ensMaj.voting = "majority" from rfl]
  simp only [reduceIte]
  rw [ensMaj_preds, if_neg (by simp)]
  simp [voteSum, List.range_succ]
  norm_num

theorem ensemblePredict_ensMaj : ensemblePredict ensMaj [5] = [1] := by
  unfold ensemblePredict
  rw [ensembleScore_ensMaj, show ensMaj.voting = "majority" from rfl]
  simp only [reduceIte, List.map_cons, List.map_nil]
  norm_num

end Anomaly
namespace Anomaly

theorem if_one_zero_eq_one_iff (c : Prop) [Decidable c] :
    ((if c then (1 : ℤ) else 0) = 1 ↔ c) := by
  split
  · simp [*]
  · simp [*]

theorem statPredict_getD (st : StatState) (data ss : List ℚ) (ps : List ℤ)
    (hss : statScore st data = .ok ss) (hps : statPredict st data = .ok ps)
    (i : ℕ) (hi : i < ss.length) :
    ps.getD i 0 = if ss.getD i 0 > st.threshold then 1 else 0 := by
  unfold statPredict at hps
  rw [hss] at hps
  simp only [Except.map] at hps
  injection hps with h
  subst h
  exact getD_map_lt _ ss i hi 0 0

/-- Claim C1 (amended): `predict == 1 ⇔ score > threshold` holds for the
`StatisticalDetector` (whose `predict` compares `score` to the mutable
`threshold` attribute), but not for the other variants: the
`EnsembleDetector` compares its score to the fixed constants `0.5`
(majority) and `0.6` (weighted), ignoring its inherited `threshold`
attribute, and the isolation-forest and LOF adapters return the wrapped
model's own `{-1, 1}` decision, not a comparison of their score with the
`threshold` attribute. -/
theorem C1_predict_iff_score_gt_threshold_per_variant :
    (∀ (st : StatState) (data ss : List ℚ) (ps : List ℤ),
        statScore st data = .ok ss → statPredict st data = .ok ps →
        ∀ i, i < ss.length → (ps.getD i 0 = 1 ↔ ss.getD i 0 > st.threshold)) ∧
    (∀ (st : EnsembleState) (data : List ℚ) (j : ℕ), j < data.length →
        (st.voting = "majority" →
          ((ensemblePredict st data).getD j 0 = 1 ↔ (ensembleScore st data).getD j 0 > 1 / 2)) ∧
        (st.voting ≠ "majority" →
          ((ensemblePredict st data).getD j 0 = 1 ↔ (ensembleScore st data).getD j 0 > 3 / 5))) ∧
    (∀ (st : IFState) (data : List ℚ) (ps : List ℤ),
        ifPredict st data = .ok ps →
        ∀ i, i < (st.model.predict data).length →
          (ps.getD i 0 = 1 ↔ (st.model.predict data).getD i 0 = -1)) ∧
    (∀ (st : LOFState) (data : List ℚ) (ps : List ℤ),
        lofPredict st data = .ok ps →
        ∀ i, i < (st.model.predict data).length →
          (ps.getD i 0 = 1 ↔ (st.model.predict data).getD i 0 = -1)) := by
  refine ⟨?_, ?_, ?_, ?_⟩
  · intro st data ss ps hss hps i hi
    rw [statPredict_getD st data ss ps hss hps i hi]
    exact if_one_zero_eq_one_iff _
  · intro st data j hj
    constructor
    · intro hv
      rw [ensemblePredict_majority_getD st data hv j hj]
      exact if_one_zero_eq_one_iff _
    · intro hv
      rw [ensemblePredict_weighted_getD st data hv j hj]
      exact if_one_zero_eq_one_iff _
  · intro st data ps hps i hi
    unfold ifPredict at hps
    by_cases hf : st.is_fitted
    · rw [hf] at hps
      simp only [Bool.not_true, Bool.false_eq_true, if_false] at hps
      injection hps with h
      subst h
      rw [getD_map_lt _ _ i hi 0 0]
      exact if_one_zero_eq_one_iff _
    · rw [Bool.not_eq_true] at hf
      rw [hf] at hps
      simp only [Bool.not_false, if_true] at hps
      exact Except.noConfusion hps
  · intro st data ps hps i hi
    unfold lofPredict at hps
    by_cases hf : st.is_fitted
    · rw [hf] at hps
      simp only [Bool.not_true, Bool.false_eq_true, if_false] at hps
      injection hps with h
      subst h
      rw [getD_map_lt _ _ i hi 0 0]
      exact if_one_zero_eq_one_iff _
    · rw [Bool.not_eq_true] at hf
      rw [hf] at hps
      simp only [Bool.not_false, if_true] at hps
      exact Except.noConfusion hps

/-- Claim C1, counterexample to the stated equivalence for the ensemble
variant: the fitted majority ensemble `ensMaj` (threshold attribute
`2.5`) has score `2/3` on the point `[5]` and predicts anomaly there,
although `2/3 > 2.5` is false. -/
theorem C1_counterexample_ensemble_ignores_threshold_attribute :
    (ensemblePredict ensMaj [5]).getD 0 0 = 1 ∧
    (ensembleScore ensMaj [5]).getD 0 0 = 2 / 3 ∧
    ensMaj.threshold = 5 / 2 ∧
    ¬ (ensembleScore ensMaj [5]).getD 0 0 > ensMaj.threshold := by
  rw [ensemblePredict_ensMaj, ensembleScore_ensMaj]
  refine ⟨rfl, rfl, rfl, ?_⟩
  show ¬ (2 / 3 : ℚ) > (5 / 2 : ℚ)
  norm_num

theorem C1_witness :
    ([(0 : ℤ), 1].getD 1 0 = 1 ↔
      ([(0 : ℚ), 40 / eps].getD 1 0 >
        (statFit (statInit (5 / 2) "zscore" 10) (List.replicate 10 (10 : ℚ))).threshold)) :=
  C1_predict_iff_score_gt_threshold_per_variant.1
    (statFit (statInit (5 / 2) "zscore" 10) (List.replicate 10 (10 : ℚ)))
    [10, 50] [0, 40 / eps] [0, 1] statScore_ten_scenario statPredict_ten_scenario 1
    (by norm_num)

end Anomaly
namespace Anomaly

/-- Claim C2 (amended): the statistical, isolation-forest and LOF
variants, and the shared base `predict_with_scores`, all raise a typed
error when called unfitted; the `EnsembleDetector` however performs no
fitted check in its overridden `score`/`predict`/`predict_with_scores`
and, when every (unfitted) member raises, silently returns the all-zero
score vector. -/
theorem C2_unfitted_calls_raise_except_ensemble :
    ∀ data : List ℚ,
      (∀ st : StatState, st.is_fitted = false →
          statScore st data = .error "Detector must be fitted first" ∧
          statPredict st data = .error "Detector must be fitted first") ∧
      (∀ st : IFState, st.is_fitted = false →
          ifScore st data = .error "Detector must be fitted first" ∧
          ifPredict st data = .error "Detector must be fitted first") ∧
      (∀ st : LOFState, st.is_fitted = false →
          lofScore st data = .error "Detector must be fitted first" ∧
          lofPredict st data = .error "Detector must be fitted first") ∧
      (∀ (name : String) (thr : ℚ)
          (score : List ℚ → Except String (List ℚ))
          (predict : List ℚ → Except String (List ℤ)),
          predictWithScores false name thr score predict data =
            .error (name ++ " must be fitted before prediction")) ∧
      (∀ st : EnsembleState, st.voting = "majority" →
          (∀ d ∈ st.detectors, d.predict data = none) →
          ensembleScore st data = List.replicate data.length 0 ∧
          ensemblePredict st data = List.replicate data.length 0) := by
  intro data
  refine ⟨?_, ?_, ?_, ?_, ?_⟩
  · intro st h
    have hsc : statScore st data = .error "Detector must be fitted first" := by
      unfold statScore
      rw [h]
      rfl
    exact ⟨hsc, by unfold statPredict; rw [hsc]; rfl⟩
  · intro st h
    constructor
    · unfold ifScore; rw [h]; rfl
    · unfold ifPredict; rw [h]; rfl
  · intro st h
    constructor
    · unfold lofScore; rw [h]; rfl
    · unfold lofPredict; rw [h]; rfl
  · intro name thr score predict
    unfold predictWithScores
    rfl
  · intro st hv hall
    have hemp : st.detectors.filterMap (fun d => d.predict data) = [] :=
      List.filterMap_eq_nil_iff.mpr hall
    have hsc := ensembleScore_majority_empty st data hv hemp
    refine ⟨hsc, ?_⟩
    unfold ensemblePredict
    rw [hsc, hv]
    simp only [reduceIte, List.map_replicate]
    have h0 : (if (0 : ℚ) > 1 / 2 then (1 : ℤ) else 0) = 0 := by norm_num
    rw [h0]

/-- Claim C2, counterexample: the unfitted majority `EnsembleDetector`
(whose members, being unfitted, all raise) does not raise on
`score`/`predict`/`predict_with_scores`: it silently returns all-zero
scores and predictions on `[1, 2]`. -/
theorem C2_counterexample_unfitted_ensemble_silent_zeros :
    ensUnfit.is_fitted = false ∧
    ensembleScore ensUnfit [1, 2] = [0, 0] ∧
    ensemblePredict ensUnfit [1, 2] = [0, 0] ∧
    (ensemblePredictWithScores ensUnfit [1, 2]).predictions = [0, 0] ∧
    (ensemblePredictWithScores ensUnfit [1, 2]).scores = [0, 0] := by
  have hemp : ensUnfit.detectors.filterMap (fun d => d.predict [1, 2]) = [] := by
    simp [ensUnfit, memRaise]
  have hsc : ensembleScore ensUnfit [1, 2] = [0, 0] := by
    rw [ensembleScore_majority_empty ensUnfit [1, 2] rfl hemp]
    rfl
  have hpr : ensemblePredict ensUnfit [1, 2] = [0, 0] := by
    unfold ensemblePredict
    rw [hsc, show ensUnfit.voting = "majority" from rfl]
    simp only [reduceIte, List.map_cons, List.map_nil]
    norm_num
  refine ⟨rfl, hsc, hpr, ?_, ?_⟩
  · show ensemblePredict ensUnfit [1, 2] = [0, 0]
    exact hpr
  · show ensembleScore ensUnfit [1, 2] = [0, 0]
    exact hsc

theorem C2_witness :
    statScore (statInit 3 "zscore" 10) [1, 2] = .error "Detector must be fitted first" ∧
    ensembleScore ensUnfit [3, 4] = List.replicate 2 0 :=
  ⟨((C2_unfitted_calls_raise_except_ensemble [1, 2]).1 (statInit 3 "zscore" 10) rfl).1,
    ((C2_unfitted_calls_raise_except_ensemble [3, 4]).2.2.2.2 ensUnfit rfl (by
      intro d hd
      have hd' : d = memRaise := by
        simpa [ensUnfit] using hd
      subst hd'
      rfl)).1⟩

end Anomaly
namespace Anomaly

/-- Claim C4: `add_point` returns no verdict when fewer than 10 points
are buffered (after the append) or training has not occurred; otherwise
it returns the verdict for the newest (last) buffer position, whose
`is_anomaly` flag is `1` exactly when at least one of the two detectors
predicts anomaly there (OR-combination) and whose `score` is the maximum
of the two detectors' scores there. -/
theorem C4_addPoint_verdict :
    ∀ (env : RTEnv) (st : RTState) (v : ℚ),
      let buf := dequeAppend st.window_size st.data_buffer v
      let normalized := env.normalize buf
      let ps := (env.predStat normalized).getLastD 0
      let pi := (env.predIF normalized).getLastD 0
      let ss := (env.scoreStat normalized).getLastD 0
      let si := (env.scoreIF normalized).getLastD 0
      (buf.length < 10 ∨ st.is_trained = false → (addPoint env st v).2 = none) ∧
      (10 ≤ buf.length → st.is_trained = true →
        (addPoint env st v).2 = some
          { value := v, is_anomaly := if ps + pi ≥ 1 then 1 else 0
            score := max ss si, score_stat := ss, score_if := si }) ∧
      (∀ r : Verdict, (addPoint env st v).2 = some r →
        (ps = 0 ∨ ps = 1) → (pi = 0 ∨ pi = 1) →
        ((r.is_anomaly = 1 ↔ ps = 1 ∨ pi = 1) ∧ r.score = max ss si)) := by
  intro env st v
  dsimp only
  refine ⟨?_, ?_, ?_⟩
  · intro h
    unfold addPoint
    dsimp only
    rw [if_neg]
    rintro ⟨h1, h2⟩
    rcases h with h | h
    · omega
    · rw [h] at h2
      exact Bool.noConfusion h2
  · intro h1 h2
    unfold addPoint
    dsimp only
    rw [if_pos ⟨h1, by rw [h2]⟩]
  · intro r hr hps hpi
    unfold addPoint at hr
    dsimp only at hr
    by_cases hc : 10 ≤ (dequeAppend st.window_size st.data_buffer v).length ∧
        st.is_trained = true
    · rw [if_pos hc] at hr
      injection hr with h
      subst h
      constructor
      · show (if (env.predStat (env.normalize (dequeAppend st.window_size st.data_buffer v))).getLastD 0 +
              (env.predIF (env.normalize (dequeAppend st.window_size st.data_buffer v))).getLastD 0 ≥ 1
            then (1 : ℤ) else 0) = 1 ↔ _
        rcases hps with h1 | h1 <;> rcases hpi with h2 | h2 <;>
          rw [h1, h2] <;> norm_num
      · rfl
    · rw [if_neg hc] at hr
      exact Option.noConfusion hr

/-- Streaming environment for concrete runs: identity normalizer, a
statistical member predicting `1` everywhere with score `3`, an
isolation-forest member predicting `0` everywhere with score `1`. -/
def rtEnvConst : RTEnv :=
  { normalize := fun d => d
    predStat := fun d => d.map (fun _ => 1)
    predIF := fun d => d.map (fun _ => 0)
    scoreStat := fun d => d.map (fun _ => 3)
    scoreIF := fun d => d.map (fun _ => 1) }

/-- Trained streaming state holding nine buffered points. -/
def stTrained9 : RTState :=
  { window_size := 100, data_buffer := List.replicate 9 0, predictions_buffer := []
    scores_buffer := [], is_trained := true, anomaly_count := 0, total_points := 9 }

theorem C4_witness :
    (addPoint rtEnvConst stTrained9 5).2 =
      some { value := 5, is_anomaly := if (1 : ℤ) + 0 ≥ 1 then 1 else 0
             score := max 3 1, score_stat := 3, score_if := 1 } :=
  (C4_addPoint_verdict rtEnvConst stTrained9 5).2.1 (by decide) rfl

end Anomaly
namespace Anomaly

theorem take_append_take {α : Type} (n : ℕ) (zs ws : List α) :
    List.take n (zs ++ List.take n ws) = List.take n (zs ++ ws) := by
  rw [List.take_append_eq_append_take, List.take_append_eq_append_take, List.take_take]
  congr 1
  congr 1
  omega

theorem takeLast_eq_reverse_take {α : Type} (n : ℕ) (l : List α) :
    takeLast n l = (l.reverse.take n).reverse := by
  show l.rtake n = _
  rw [List.rtake_eq_reverse_take_reverse]

theorem takeLast_append_takeLast {α : Type} (n : ℕ) (xs ys : List α) :
    takeLast n (takeLast n xs ++ ys) = takeLast n (xs ++ ys) := by
  rw [takeLast_eq_reverse_take n (takeLast n xs ++ ys),
    takeLast_eq_reverse_take n xs, takeLast_eq_reverse_take n (xs ++ ys)]
  rw [List.reverse_append, List.reverse_reverse, List.reverse_append]
  rw [take_append_take]

theorem takeLast_length {α : Type} (n : ℕ) (l : List α) :
    (takeLast n l).length = min n l.length := by
  simp [takeLast]
  omega

theorem takeLast_of_length_le {α : Type} {n : ℕ} {l : List α} (h : l.length ≤ n) :
    takeLast n l = l := by
  unfold takeLast
  rw [Nat.sub_eq_zero_of_le h]
  exact List.drop_zero l

theorem addPoint_fst_fields (env : RTEnv) (st : RTState) (v : ℚ) :
    (addPoint env st v).1.data_buffer = dequeAppend st.window_size st.data_buffer v ∧
    (addPoint env st v).1.total_points = st.total_points + 1 ∧
    (addPoint env st v).1.window_size = st.window_size := by
  unfold addPoint
  dsimp only
  split
  · exact ⟨rfl, rfl, rfl⟩
  · exact ⟨rfl, rfl, rfl⟩

theorem runStream_inv (env : RTEnv) :
    ∀ (vs : List ℚ) (st : RTState), st.data_buffer.length ≤ st.window_size →
      (runStream env st vs).window_size = st.window_size ∧
      (runStream env st vs).data_buffer = takeLast st.window_size (st.data_buffer ++ vs) ∧
      (runStream env st vs).total_points = st.total_points + vs.length := by
  intro vs
  induction vs with
  | nil =>
      intro st hle
      refine ⟨rfl, ?_, rfl⟩
      show st.data_buffer = takeLast st.window_size (st.data_buffer ++ [])
      rw [List.append_nil, takeLast_of_length_le hle]
  | cons v vs ih =>
      intro st hle
      have hfields := addPoint_fst_fields env st v
      have hrun : runStream env st (v :: vs) = runStream env (addPoint env st v).1 vs := rfl
      have hle1 : (addPoint env st v).1.data_buffer.length ≤ (addPoint env st v).1.window_size := by
        rw [hfields.1, hfields.2.2]
        show (takeLast st.window_size (st.data_buffer ++ [v])).length ≤ st.window_size
        rw [takeLast_length]
        omega
      obtain ⟨hw, hb, ht⟩ := ih (addPoint env st v).1 hle1
      rw [hrun]
      refine ⟨by rw [hw, hfields.2.2], ?_, ?_⟩
      · rw [hb, hfields.1, hfields.2.2]
        show takeLast st.window_size (takeLast st.window_size (st.data_buffer ++ [v]) ++ vs) = _
        rw [takeLast_append_takeLast, List.append_assoc, List.singleton_append]
      · rw [ht, hfields.2.1]
        simp only [List.length_cons]
        omega

/-- Claim C7: for any capacity `W` and any stream of `add_point` calls
starting from a fresh state, the data buffer is always exactly the most
recent `min(n, W)` values in arrival order (`takeLast W` of the stream,
i.e. FIFO eviction of the oldest), its length never exceeds `W`, and
`total_points` equals the number of calls. -/
theorem C7_buffer_fifo_bounded_and_counter :
    ∀ (env : RTEnv) (W : ℕ) (trained : Bool) (vs : List ℚ),
      (runStream env (rtInit W trained) vs).data_buffer = takeLast W vs ∧
      (runStream env (rtInit W trained) vs).data_buffer.length = min vs.length W ∧
      (runStream env (rtInit W trained) vs).data_buffer.length ≤ W ∧
      (runStream env (rtInit W trained) vs).total_points = vs.length := by
  intro env W trained vs
  obtain ⟨hw, hb, ht⟩ := runStream_inv env vs (rtInit W trained) (by simp [rtInit])
  have hb' : (runStream env (rtInit W trained) vs).data_buffer = takeLast W vs := by
    rw [hb]
    rfl
  refine ⟨hb', ?_, ?_, ?_⟩
  · rw [hb', takeLast_length]
    omega
  · rw [hb', takeLast_length]
    omega
  · rw [ht]
    show 0 + vs.length = vs.length
    omega

end Anomaly
namespace Anomaly

/-- Claim C9: for each normalization method, fit-transforming a training
sample with nonzero fitted scale (standard: `std ≠ 0`; minmax:
`max ≠ min`; robust: `IQR ≠ 0` — the non-degenerate-spread condition)
and then denormalizing reproduces the sample exactly. -/
theorem C9_normalize_denormalize_roundtrip :
    ∀ (method : String) (train : List ℚ) (p : ProcState) (out : List ℚ),
      tspNormalize (tspInit method) train true = .ok (p, out) →
      (scalerFit method train).scale ≠ 0 →
      tspDenormalize p out = train := by
  intro method train p out h hs
  unfold tspNormalize at h
  simp only [if_true, reduceIte, tspInit] at h
  injection h with h
  rw [Prod.mk.injEq] at h
  obtain ⟨hp, hout⟩ := h
  subst hp
  subst hout
  unfold tspDenormalize
  dsimp only
  rw [List.map_map]
  have : ((fun x => x * (scalerFit method train).scale + (scalerFit method train).center) ∘
      fun x => (x - (scalerFit method train).center) / (scalerFit method train).scale) =
      fun x : ℚ => x := by
    funext x
    simp only [Function.comp]
    rw [div_mul_cancel₀ _ hs]
    ring
  rw [this]
  exact List.map_id train

theorem C9_witness :
    tspDenormalize
      { method := "minmax", scaler := scalerFit "minmax" [1, 2, 3, 4], fitted := true }
      ([1, 2, 3, 4].map (fun x =>
        (x - (scalerFit "minmax" [1, 2, 3, 4]).center) /
          (scalerFit "minmax" [1, 2, 3, 4]).scale)) = [1, 2, 3, 4] :=
  C9_normalize_denormalize_roundtrip "minmax" [1, 2, 3, 4] _ _ rfl (by
    show (scalerFit "minmax" [1, 2, 3, 4]).scale ≠ 0
    unfold scalerFit
    rw [if_pos rfl]
    show listMax [1, 2, 3, 4] - listMin [1, 2, 3, 4] ≠ 0
    unfold listMax listMin
    norm_num [max_def, min_def])

end Anomaly
namespace Anomaly

/-- Claim C3: in majority mode, when `k` of the `n` members whose
`predict` call succeeds flag a point, the ensemble's score there is
exactly `k/n` (a value in `[0, 1]`) and `predict` returns `1` there iff
`k/n > 0.5`; in weighted mode `predict` returns `1` iff the weighted
score exceeds `0.6`. -/
theorem C3_majority_fraction_and_weighted_cutoff :
    (∀ (st : EnsembleState) (data : List ℚ) (preds : List (List ℤ)),
        st.voting = "majority" →
        preds = st.detectors.filterMap (fun d => d.predict data) →
        preds ≠ [] →
        (∀ p ∈ preds, ∀ x ∈ p, x = 0 ∨ x = 1) →
        (∀ p ∈ preds, p.length = data.length) →
        ∀ j, j < data.length →
          (ensembleScore st data).getD j 0 =
            ((preds.map (fun p => p.getD j 0)).count 1 : ℚ) / preds.length ∧
          0 ≤ (ensembleScore st data).getD j 0 ∧
          (ensembleScore st data).getD j 0 ≤ 1 ∧
          ((ensemblePredict st data).getD j 0 = 1 ↔
            ((preds.map (fun p => p.getD j 0)).count 1 : ℚ) / preds.length > 1 / 2)) ∧
    (∀ (st : EnsembleState) (data : List ℚ), st.voting ≠ "majority" →
        ∀ j, j < data.length →
          ((ensemblePredict st data).getD j 0 = 1 ↔
            (ensembleScore st data).getD j 0 > 3 / 5)) := by
  constructor
  · intro st data preds hv hp hne h01 hlen j hj
    subst hp
    set preds := st.detectors.filterMap (fun d => d.predict data) with hpreds
    have h01' : ∀ p ∈ preds, p.getD j 0 = 0 ∨ p.getD j 0 = 1 := by
      intro p hp'
      have hjp : j < p.length := by rw [hlen p hp']; exact hj
      rw [List.getD_eq_getElem p 0 hjp]
      exact h01 p hp' _ (List.getElem_mem hjp)
    have hlenpos : (0 : ℚ) < preds.length := by
      have := Nat.pos_of_ne_zero (fun h => hne (List.length_eq_zero.mp h))
      exact_mod_cast this
    have hscore : (ensembleScore st data).getD j 0 =
        ((preds.map (fun p => p.getD j 0)).count 1 : ℚ) / preds.length := by
      rw [ensembleScore_majority_getD st data hv hne j hj, voteSum_eq_count preds j h01']
      push_cast
      ring
    refine ⟨hscore, ?_, ?_, ?_⟩
    · rw [hscore]
      positivity
    · rw [hscore, div_le_one hlenpos]
      have hc : (preds.map (fun p => p.getD j 0)).count 1 ≤ preds.length := by
        calc (preds.map (fun p => p.getD j 0)).count 1
            ≤ (preds.map (fun p => p.getD j 0)).length := List.count_le_length _ _
          _ = preds.length := List.length_map _ _
      exact_mod_cast hc
    · rw [ensemblePredict_majority_getD st data hv j hj, hscore]
      exact if_one_zero_eq_one_iff _
  · intro st data hv j hj
    rw [ensemblePredict_weighted_getD st data hv j hj]
    exact if_one_zero_eq_one_iff _

theorem C3_witness :
    ((ensembleScore ensMaj [5]).getD 0 0 =
      (([[1], [1], [0]].map (fun p : List ℤ => p.getD 0 0)).count 1 : ℚ) / 3 ∧
      0 ≤ (ensembleScore ensMaj [5]).getD 0 0 ∧
      (ensembleScore ensMaj [5]).getD 0 0 ≤ 1 ∧
      ((ensemblePredict ensMaj [5]).getD 0 0 = 1 ↔
        (([[1], [1], [0]].map (fun p : List ℤ => p.getD 0 0)).count 1 : ℚ) / 3 > 1 / 2)) := by
  have h := (C3_majority_fraction_and_weighted_cutoff.1 ensMaj [5] [[1], [1], [0]] rfl
    ensMaj_preds.symm (by simp)
    (by intro p hp x hx
        simp only [List.mem_cons, List.not_mem_nil, or_false] at hp
        rcases hp with rfl | rfl | rfl <;> simp_all)
    (by intro p hp
        simp only [List.mem_cons, List.not_mem_nil, or_false] at hp
        rcases hp with rfl | rfl | rfl <;> rfl)
    0 (by norm_num))
  simpa using h

end Anomaly
